import Mathlib

/-!
Verification of the SAC (Soft Actor-Critic) agent in
`tf2rl/algos/sac_old_v1.py`.

Modelling conventions:
* Scalars carried by tensors are rationals (`ℚ`): the claims are exact
  algebraic statements about the loss formulas, not floating-point facts.
* A batch is a `List`; elementwise tensor operations are `List.zipWith`
  and `List.map`.
* Every value recorded on the gradient tape is a `Dual` number
  `(val, deriv)`: `deriv` is the derivative of the value with respect to
  an arbitrary fixed direction in parameter space, so
  `tf.stop_gradient` is the operation that zeroes the `deriv` component.
* The neural networks (`CriticQ.call`, `GaussianActor`) and the Adam
  optimizer steps are opaque numeric maps; the agent file composes them,
  and the claims quantify over their behaviour, so they appear as
  abstract function parameters bundled in `NetModel`.  Parameter vectors
  are `List ℚ` (the flat `weights` / `trainable_variables` list).
* `rewards` and `dones` arrive at `train_body` as shaped tensors
  (`NTensor`), because the training step asserts their rank and then
  squeezes them; all other tensors are handled directly as lists.
-/

/-- A scalar recorded on the gradient tape: its value together with its
derivative along a fixed direction in parameter space.  `tf.stop_gradient`
keeps the value and erases the derivative. -/
structure Dual where
  val : ℚ
  deriv : ℚ
deriving DecidableEq

instance : Add Dual := ⟨fun a b => ⟨a.val + b.val, a.deriv + b.deriv⟩⟩

instance : Sub Dual := ⟨fun a b => ⟨a.val - b.val, a.deriv - b.deriv⟩⟩

instance : Mul Dual := ⟨fun a b => ⟨a.val * b.val, a.val * b.deriv + a.deriv * b.val⟩⟩

instance : Neg Dual := ⟨fun a => ⟨-a.val, -a.deriv⟩⟩

/-- A constant (an input tensor entry or a Python scalar): zero derivative. -/
def Dual.const (x : ℚ) : Dual := ⟨x, 0⟩

/-- `tf.stop_gradient`: value preserved, gradient flow cut. -/
def Dual.stopGradient (a : Dual) : Dual := ⟨a.val, 0⟩

/-- `tf.minimum`, elementwise on values (subgradient follows the branch). -/
def Dual.minD (a b : Dual) : Dual := if a.val ≤ b.val then a else b

/-- `tf.reduce_mean` over a batch of tape-recorded scalars. -/
def dmean (l : List Dual) : Dual :=
  ⟨(l.map Dual.val).sum / (l.length : ℚ), (l.map Dual.deriv).sum / (l.length : ℚ)⟩

/-- `tf.reduce_min` on a plain value batch. -/
def listMin : List ℚ → ℚ
  | [] => 0
  | x :: xs => xs.foldl min x

/-- `tf.reduce_max` on a plain value batch. -/
def listMax : List ℚ → ℚ
  | [] => 0
  | x :: xs => xs.foldl max x

/-- Elementwise combination of three equally long batches. -/
def zipWith3 (f : α → β → γ → δ) : List α → List β → List γ → List δ
  | a :: as, b :: bs, c :: cs => f a b c :: zipWith3 f as bs cs
  | _, _, _ => []

/-- A shaped numeric tensor (row-major data).  Only `rewards` and `dones`
need their shape observed, for the rank assertions and the squeeze. -/
structure NTensor where
  shape : List ℕ
  data : List ℚ
deriving DecidableEq

/-- `tf.squeeze(t, axis=1)`: removes the second axis, which must have
extent 1, else TF raises an invalid-argument error. -/
def squeeze1 (t : NTensor) : Except String NTensor :=
  match t.shape with
  | b :: 1 :: rest => .ok ⟨b :: rest, t.data⟩
  | _ => .error "InvalidArgumentError"

/-- `np.expand_dims(state, axis=0)`. -/
def expandDims0 (t : NTensor) : NTensor := ⟨1 :: t.shape, t.data⟩

/-- Numpy indexing `arr[0]`: drops the leading axis. -/
def index0 (t : NTensor) : NTensor := ⟨t.shape.tail, t.data.take t.shape.tail.prod⟩

/-- Modelled from the spec: `update_target_variables(target, source, tau)`
(from `tf2rl.misc.target_update_ops`, not part of the excerpt) sets each
`target ← tau * source + (1 - tau) * target` for corresponding parameter
pairs. -/
def update_target_variables (target source : List ℚ) (tau : ℚ) : List ℚ :=
  List.zipWith (fun t s => tau * s + (1 - tau) * t) target source

/-- The numeric components the SAC agent composes.  `Q` is `CriticQ.call`
at a given weight vector (per batch element); `actorf` is the
`GaussianActor` sample at a given weight vector, with an explicit draw
index distinguishing independent stochastic samples within one step
(draw 0: the bootstrap sample on `next_states`; draw 1: the resample on
`states`); `actorB` is the actor on a raw batched observation tensor, as
used by `get_action`; `V` evaluates a value-function network (only
referenced by `_compute_td_error_body`); the `*Step` functions are the
Adam optimizer applications, each a function of exactly the data the
corresponding recorded loss depends on; `expf` is `tf.exp` on scalars. -/
structure NetModel (S A : Type) where
  Q : List ℚ → S → A → Dual
  actorf : List ℚ → ℕ → S → A × Dual
  actorB : List ℚ → NTensor → Bool → NTensor × NTensor
  V : List ℚ → S → Dual
  qGradStep : List ℚ → List ℚ → List S → List A → List ℚ → List ℚ × List ℚ
  actorGradStep : List ℚ → List S → List ℚ → List ℚ → ℚ → List ℚ
  alphaOptStep : ℚ → ℚ → ℚ
  expf : ℚ → ℚ

/-- The SAC agent's mutable state: live and target critic weights, actor
weights, the entropy-temperature block, and the hyper-parameters fixed at
construction.  `vf_target` models Python attribute presence: `__init__`
never assigns it (`_setup_critic_v` is commented out), so it is `none` on
every constructed agent. -/
structure AgentState where
  qf1 : List ℚ
  qf2 : List ℚ
  qf1_target : List ℚ
  qf2_target : List ℚ
  actorW : List ℚ
  auto_alpha : Bool
  alpha : ℚ
  log_alpha : ℚ
  target_alpha : ℚ
  tau : ℚ
  discount : ℚ
  state_ndim : ℕ
  vf_target : Option (List ℚ)
deriving DecidableEq

/-- `SAC.__init__` (lines 35-71): stores hyper-parameters, initializes the
entropy-temperature block (`log_alpha = 0`, `alpha = exp(log_alpha)`,
`target_alpha = -action_dim` when auto-tuning, else the fixed `alpha`
argument), copies live critic weights onto the freshly built target
critics with `tau = 1`, and records the state rank. -/
def initSAC (action_dim : ℕ) (alphaArg : ℚ) (auto_alpha : Bool) (tau discount : ℚ)
    (expf : ℚ → ℚ) (qf1w qf2w qf1tw qf2tw actorw : List ℚ) (state_shape_len : ℕ) :
    AgentState :=
  { qf1 := qf1w
    qf2 := qf2w
    qf1_target := update_target_variables qf1tw qf1w 1
    qf2_target := update_target_variables qf2tw qf2w 1
    actorW := actorw
    auto_alpha := auto_alpha
    alpha := if auto_alpha then expf 0 else alphaArg
    log_alpha := 0
    target_alpha := if auto_alpha then -(action_dim : ℚ) else 0
    tau := tau
    discount := discount
    state_ndim := state_shape_len
    vf_target := none }

/-- The values `SAC._train_body` computes and returns (source line 185
returns `target_q, policy_loss, current_q1, td_loss_q1` and the `logp`
statistics; the remaining fields record the other tape values so the
theorems can speak about them). -/
structure TrainOut (S A : Type) where
  target_q : List Dual
  policy_loss : Dual
  current_q1 : List Dual
  td_loss_q1 : Dual
  logp_min : ℚ
  logp_max : ℚ
  logp_mean : ℚ
  current_q2 : List Dual
  td_loss_q2 : Dual
  td_loss_q : Dual
  alpha_loss : Option Dual
  sample_next_actions : List A
  next_logp : List Dual
  sample_actions : List A
  logp : List Dual

/-- The body of `SAC._train_body` after the squeeze (source lines
139-186): loss construction on the tape, critic gradient application,
target soft-updates, actor gradient application, and the optional
`log_alpha` step followed by `alpha ← exp(log_alpha)`.  The optimizer
steps receive exactly the recorded data each loss depends on; in
particular the critic step receives the `stop_gradient`-ed target values
(a plain `List ℚ`, no derivative component). -/
def trainCore {S A : Type} (M : NetModel S A) (st : AgentState)
    (states : List S) (actions : List A) (next_states : List S)
    (rewards dones : List ℚ) : TrainOut S A × AgentState :=
  let not_dones : List ℚ := dones.map (fun d => 1 - d)
  let current_q1 := List.zipWith (M.Q st.qf1) states actions
  let current_q2 := List.zipWith (M.Q st.qf2) states actions
  let sample_next_actions := next_states.map (fun s => (M.actorf st.actorW 0 s).1)
  let next_logp := next_states.map (fun s => (M.actorf st.actorW 0 s).2)
  let next_q1_target := List.zipWith (M.Q st.qf1_target) next_states sample_next_actions
  let next_q2_target := List.zipWith (M.Q st.qf2_target) next_states sample_next_actions
  let next_q_min_target := List.zipWith Dual.minD next_q1_target next_q2_target
  let soft_next_q := List.zipWith (fun mq lp => mq - Dual.const st.alpha * lp)
    next_q_min_target next_logp
  let target_q := zipWith3 (fun r nd sq =>
      Dual.stopGradient (Dual.const r + Dual.const nd * Dual.const st.discount * sq))
    rewards not_dones soft_next_q
  let td_loss_q1 := dmean (List.zipWith (fun t c => (t - c) * (t - c)) target_q current_q1)
  let td_loss_q2 := dmean (List.zipWith (fun t c => (t - c) * (t - c)) target_q current_q2)
  let td_loss_q := td_loss_q1 + td_loss_q2
  let sample_actions := states.map (fun s => (M.actorf st.actorW 1 s).1)
  let logp := states.map (fun s => (M.actorf st.actorW 1 s).2)
  let current_q1_policy := List.zipWith (M.Q st.qf1) states sample_actions
  let current_q2_policy := List.zipWith (M.Q st.qf2) states sample_actions
  let current_min_q_policy := List.zipWith Dual.minD current_q1_policy current_q2_policy
  let policy_loss := dmean (List.zipWith (fun lp mq => Dual.const st.alpha * lp - mq)
    logp current_min_q_policy)
  let alpha_loss : Option Dual :=
    if st.auto_alpha then
      some (-(dmean (logp.map (fun lp =>
        Dual.const st.log_alpha * Dual.stopGradient (lp + Dual.const st.target_alpha)))))
    else none
  let qstep := M.qGradStep st.qf1 st.qf2 states actions (target_q.map Dual.val)
  let qf1' := qstep.1
  let qf2' := qstep.2
  let qf1_target' := update_target_variables st.qf1_target qf1' st.tau
  let qf2_target' := update_target_variables st.qf2_target qf2' st.tau
  let actorW' := M.actorGradStep st.actorW states st.qf1 st.qf2 st.alpha
  let log_alpha' := if st.auto_alpha then
      M.alphaOptStep st.log_alpha
        (-(((logp.map (fun lp => lp.val + st.target_alpha)).sum) / (logp.length : ℚ)))
    else st.log_alpha
  let alpha' := if st.auto_alpha then M.expf log_alpha' else st.alpha
  ({ target_q := target_q
     policy_loss := policy_loss
     current_q1 := current_q1
     td_loss_q1 := td_loss_q1
     logp_min := listMin (logp.map Dual.val)
     logp_max := listMax (logp.map Dual.val)
     logp_mean := (logp.map Dual.val).sum / (logp.length : ℚ)
     current_q2 := current_q2
     td_loss_q2 := td_loss_q2
     td_loss_q := td_loss_q
     alpha_loss := alpha_loss
     sample_next_actions := sample_next_actions
     next_logp := next_logp
     sample_actions := sample_actions
     logp := logp },
   { st with
     qf1 := qf1'
     qf2 := qf2'
     qf1_target := qf1_target'
     qf2_target := qf2_target'
     actorW := actorW'
     log_alpha := log_alpha'
     alpha := alpha' })

/-- `SAC._train_body` (source lines 130-186): asserts that `dones` and
`rewards` are rank-2, squeezes both along axis 1, and runs the loss and
update pipeline.  `weights` is accepted (source line 131) and never used
by the body. -/
def train_body {S A : Type} (M : NetModel S A) (st : AgentState)
    (states : List S) (actions : List A) (next_states : List S)
    (rewards dones : NTensor) (weights : List ℚ) :
    Except String (TrainOut S A × AgentState) :=
  if dones.shape.length = 2 then
    if rewards.shape.length = 2 then
      match squeeze1 rewards, squeeze1 dones with
      | .ok r, .ok d => .ok (trainCore M st states actions next_states r.data d.data)
      | _, _ => .error "InvalidArgumentError"
    else .error "AssertionError"
  else .error "AssertionError"

/-- `SAC.train` (source lines 110-128): defaults `weights` to
`np.ones_like(rewards)`, runs the training step, and returns `td_errors`
(the `target_q` tensor); the `tf.summary` calls are pure telemetry and
write no agent state. -/
def train {S A : Type} (M : NetModel S A) (st : AgentState)
    (states : List S) (actions : List A) (next_states : List S)
    (rewards dones : NTensor) (weights : Option (List ℚ)) :
    Except String (List Dual × AgentState) :=
  let w := weights.getD (rewards.data.map (fun _ => (1 : ℚ)))
  match train_body M st states actions next_states rewards dones w with
  | .ok (out, st') => .ok (out.target_q, st')
  | .error e => .error e

/-- `SAC.get_action` (source lines 94-102): a single observation (rank
equal to the configured state rank) is expanded to a batch of one,
dispatched through the actor, and the results are indexed at 0; a
pre-batched observation passes through unchanged. -/
def get_action {S A : Type} (M : NetModel S A) (st : AgentState)
    (state : NTensor) (test : Bool) : NTensor × NTensor :=
  if state.shape.length = st.state_ndim then
    let res := M.actorB st.actorW (expandDims0 state) test
    (index0 res.1, index0 res.2)
  else
    M.actorB st.actorW state test

/-- `SAC._compute_td_error_body` (source lines 196-211): looks up the
agent attribute `vf_target` — which no constructor path ever assigns, so
the lookup fails on every constructed agent — and otherwise would form a
single-value-function bootstrap target `rewards + not_dones * discount *
vf_target(next_states)` and return `target_q - current_q1` without
touching any parameter. -/
def compute_td_error_body {S A : Type} (M : NetModel S A) (st : AgentState)
    (states : List S) (actions : List A) (next_states : List S)
    (rewards dones : List ℚ) : Except String (List Dual) :=
  match st.vf_target with
  | none => .error "AttributeError"
  | some vfw =>
    let not_dones := dones.map (fun d => 1 - d)
    let current_q1 := List.zipWith (M.Q st.qf1) states actions
    let vf_next_target := next_states.map (M.V vfw)
    let target_q := zipWith3 (fun r nd v =>
        Dual.stopGradient (Dual.const r + Dual.const nd * Dual.const st.discount * v))
      rewards not_dones vf_next_target
    .ok (List.zipWith (fun t c => t - c) target_q current_q1)

/-- Written from the spec's words (§4.4 step 4), for comparison with the
source-derived computation: per-example critic regression target
`r + (1 - d) * discount * (min(Q1t(s_next, a_next), Q2t(s_next, a_next))
- alpha * logp_next)` with `(a_next, logp_next)` drawn by `sample`. -/
def specCriticTarget {S A : Type} (discount alpha : ℚ) (q1t q2t : S → A → ℚ)
    (sample : S → A × ℚ) (rewards dones : List ℚ) (next_states : List S) : List ℚ :=
  zipWith3 (fun r d ns =>
      r + (1 - d) * discount *
        (min (q1t ns (sample ns).1) (q2t ns (sample ns).1) - alpha * (sample ns).2))
    rewards dones next_states

/-- Written from the spec's words: mean squared error of two value
batches. -/
def mse (xs ys : List ℚ) : ℚ :=
  ((List.zipWith (fun a b => (a - b) ^ 2) xs ys).sum) /
    (((List.zipWith (fun a b => (a - b) ^ 2) xs ys).length : ℚ))

/-- Written from the spec's words (§4.4 step 5): actor loss
`mean(alpha * logp' - min(Q1(s, a'), Q2(s, a')))` with `(a', logp')`
drawn by `sample` on each state. -/
def specActorLoss {S A : Type} (alpha : ℚ) (q1 q2 : S → A → ℚ)
    (sample : S → A × ℚ) (states : List S) : ℚ :=
  ((states.map (fun s =>
      alpha * (sample s).2 - min (q1 s (sample s).1) (q2 s (sample s).1))).sum) /
    ((states.length : ℚ))

/-- Written from the spec's words (§4.4 step 6): alpha loss
`-mean(log_alpha * (logp' + target_alpha))` (the `stop_gradient` affects
only gradient flow, not the value). -/
def specAlphaLoss (log_alpha target_alpha : ℚ) (logps : List ℚ) : ℚ :=
  -(((logps.map (fun lp => log_alpha * (lp + target_alpha))).sum) / ((logps.length : ℚ)))

/-- Concrete instantiation of the network/optimizer components, used by
the witness theorems: states and actions are rationals. -/
def Mw : NetModel ℚ ℚ :=
  { Q := fun p s a => ⟨p.headD 0 + s * a, p.headD 0 - 1⟩
    actorf := fun p n s => (s + (n : ℚ), ⟨p.headD 0 * s + (n : ℚ), 1⟩)
    actorB := fun p s _ => (⟨[s.shape.headD 0, 2], s.data ++ p⟩, ⟨[s.shape.headD 0], s.data⟩)
    V := fun _ s => ⟨s, 0⟩
    qGradStep := fun q1 q2 _ _ tv => (q1.map (fun x => x + tv.sum), q2.map (fun x => x - tv.sum))
    actorGradStep := fun aw _ _ _ _ => aw.map (fun x => x + 1)
    alphaOptStep := fun la g => la - g / 100
    expf := fun x => 1 + x + x * x / 2 }

/-- Concrete agent with a fixed entropy temperature. -/
def stw : AgentState :=
  initSAC 2 (1/5) false (1/200) (99/100) (fun x => 1 + x + x * x / 2)
    [1, 2] [2, 1] [0, 0] [0, 0] [3] 1

/-- Concrete agent with entropy-temperature auto-tuning enabled. -/
def stwAuto : AgentState :=
  initSAC 2 (1/5) true (1/200) (99/100) (fun x => 1 + x + x * x / 2)
    [1, 2] [2, 1] [0, 0] [0, 0] [3] 1

/-- Concrete one-transition batch for the witnesses. -/
def statesW : List ℚ := [1]

def actionsW : List ℚ := [2]

def nextStatesW : List ℚ := [3]

def rewardsW : NTensor := ⟨[1, 1], [5]⟩

def donesW : NTensor := ⟨[1, 1], [0]⟩

def donesOneW : NTensor := ⟨[1, 1], [1]⟩

def rewardsBadW : NTensor := ⟨[1], [5]⟩

/-! ## Basic lemmas about the tape scalars and batch combinators -/

@[simp]
theorem Dual.val_add (a b : Dual) : (a + b).val = a.val + b.val := rfl

@[simp]
theorem Dual.val_sub (a b : Dual) : (a - b).val = a.val - b.val := rfl

@[simp]
theorem Dual.val_mul (a b : Dual) : (a * b).val = a.val * b.val := rfl

@[simp]
theorem Dual.val_neg (a : Dual) : (-a).val = -a.val := rfl

@[simp]
theorem Dual.val_const (x : ℚ) : (Dual.const x).val = x := rfl

@[simp]
theorem Dual.val_stopGradient (a : Dual) : (Dual.stopGradient a).val = a.val := rfl

@[simp]
theorem Dual.deriv_stopGradient (a : Dual) : (Dual.stopGradient a).deriv = 0 := rfl

@[simp]
theorem Dual.val_minD (a b : Dual) : (Dual.minD a b).val = min a.val b.val := by
  unfold Dual.minD
  rcases le_or_lt a.val b.val with h | h
  · rw [if_pos h, min_eq_left h]
  · rw [if_neg (not_le.2 h), min_eq_right h.le]

theorem zipWith_self_map {α β γ : Type} (f : α → β → γ) (g : α → β) :
    ∀ l : List α, List.zipWith f l (l.map g) = l.map (fun a => f a (g a)) := by
  intro l
  induction l with
  | nil => rfl
  | cons a as ih => simp [ih]

theorem zipWith_map_both {α β γ δ : Type} (f : β → γ → δ) (g : α → β) (h : α → γ) :
    ∀ l : List α, List.zipWith f (l.map g) (l.map h) = l.map (fun a => f (g a) (h a)) := by
  intro l
  induction l with
  | nil => rfl
  | cons a as ih => simp [ih]

theorem map_zipWith3 {α β γ δ ε : Type} (g : δ → ε) (f : α → β → γ → δ) :
    ∀ (as : List α) (bs : List β) (cs : List γ),
      (zipWith3 f as bs cs).map g = zipWith3 (fun a b c => g (f a b c)) as bs cs := by
  intro as
  induction as with
  | nil => intro bs cs; cases bs <;> cases cs <;> rfl
  | cons a as ih =>
    intro bs cs
    cases bs <;> cases cs <;> simp [zipWith3, ih]

theorem zipWith3_map23 {α β γ δ ε ζ : Type} (f : α → δ → ε → ζ) (p : β → δ) (q : γ → ε) :
    ∀ (as : List α) (bs : List β) (cs : List γ),
      zipWith3 f as (bs.map p) (cs.map q)
        = zipWith3 (fun a b c => f a (p b) (q c)) as bs cs := by
  intro as
  induction as with
  | nil => intro bs cs; cases bs <;> cases cs <;> rfl
  | cons a as ih =>
    intro bs cs
    cases bs <;> cases cs <;> simp [zipWith3, ih]

theorem zipWith3_congr {α β γ δ : Type} {f g : α → β → γ → δ}
    (h : ∀ a b c, f a b c = g a b c) :
    ∀ (as : List α) (bs : List β) (cs : List γ),
      zipWith3 f as bs cs = zipWith3 g as bs cs := by
  intro as
  induction as with
  | nil => intro bs cs; cases bs <;> cases cs <;> rfl
  | cons a as ih =>
    intro bs cs
    cases bs <;> cases cs <;> simp [zipWith3, ih, h]

theorem forall_mem_zipWith3 {α β γ δ : Type} {f : α → β → γ → δ} {p : δ → Prop}
    (h : ∀ a b c, p (f a b c)) :
    ∀ (as : List α) (bs : List β) (cs : List γ), ∀ x ∈ zipWith3 f as bs cs, p x := by
  intro as
  induction as with
  | nil => intro bs cs x hx; cases bs <;> cases cs <;> simp [zipWith3] at hx
  | cons a as ih =>
    intro bs cs x hx
    cases bs with
    | nil => simp [zipWith3] at hx
    | cons b bs =>
      cases cs with
      | nil => simp [zipWith3] at hx
      | cons c cs =>
        rcases (List.mem_cons).1 hx with h1 | h2
        · exact h1 ▸ h a b c
        · exact ih bs cs x h2

theorem zipWith3_eq_left {α β γ : Type} {f : α → β → γ → α} :
    ∀ (as : List α) (bs : List β) (cs : List γ),
      bs.length = as.length → cs.length = as.length →
      (∀ a, ∀ b ∈ bs, ∀ c, f a b c = a) →
      zipWith3 f as bs cs = as := by
  intro as
  induction as with
  | nil => intro bs cs hb hc _; cases bs <;> cases cs <;> simp_all [zipWith3]
  | cons a as ih =>
    intro bs cs hb hc hf
    cases bs with
    | nil => simp at hb
    | cons b bs =>
      cases cs with
      | nil => simp at hc
      | cons c cs =>
        simp only [zipWith3]
        rw [hf a b (List.mem_cons_self b bs) c,
          ih bs cs (by simpa using hb) (by simpa using hc)
            (fun a' b' hb' c' => hf a' b' (List.mem_cons_of_mem b hb') c')]

theorem zipWith_congr2 {α β γ : Type} {f g : α → β → γ} (h : ∀ a b, f a b = g a b) :
    ∀ (l : List α) (l' : List β), List.zipWith f l l' = List.zipWith g l l' := by
  intro l
  induction l with
  | nil => intro l'; rfl
  | cons a as ih =>
    intro l'
    cases l' <;> simp [ih, h]

theorem dmean_sq_eq_mse (xs ys : List Dual) :
    (dmean (List.zipWith (fun t c => (t - c) * (t - c)) xs ys)).val
      = mse (xs.map Dual.val) (ys.map Dual.val) := by
  unfold dmean mse
  rw [List.map_zipWith, List.zipWith_map]
  rw [zipWith_congr2 (f := fun t c => ((t - c) * (t - c)).val)
    (g := fun a b => (a.val - b.val) ^ 2) (fun a b => by simp [sq]) xs ys]
  simp [List.length_zipWith]

/-! ## Structural lemmas about the training step -/

theorem map_congr_fun {α β : Type} {f g : α → β} (h : ∀ a, f a = g a) :
    ∀ l : List α, l.map f = l.map g := by
  intro l
  induction l with
  | nil => rfl
  | cons a as ih => simp [h, ih]

theorem trainCore_target_q {S A : Type} (M : NetModel S A) (st : AgentState)
    (states : List S) (actions : List A) (next_states : List S)
    (rewards dones : List ℚ) :
    (trainCore M st states actions next_states rewards dones).1.target_q
      = zipWith3 (fun r nd sq =>
          Dual.stopGradient (Dual.const r + Dual.const nd * Dual.const st.discount * sq))
        rewards (dones.map (fun d => 1 - d))
        (next_states.map (fun s =>
          Dual.minD (M.Q st.qf1_target s (M.actorf st.actorW 0 s).1)
              (M.Q st.qf2_target s (M.actorf st.actorW 0 s).1)
            - Dual.const st.alpha * (M.actorf st.actorW 0 s).2)) := by
  simp only [trainCore, zipWith_self_map, zipWith_map_both]

theorem trainCore_target_val {S A : Type} (M : NetModel S A) (st : AgentState)
    (states : List S) (actions : List A) (next_states : List S)
    (rewards dones : List ℚ) :
    ((trainCore M st states actions next_states rewards dones).1.target_q).map Dual.val
      = specCriticTarget st.discount st.alpha
          (fun s a => (M.Q st.qf1_target s a).val) (fun s a => (M.Q st.qf2_target s a).val)
          (fun s => ((M.actorf st.actorW 0 s).1, (M.actorf st.actorW 0 s).2.val))
          rewards dones next_states := by
  rw [trainCore_target_q, map_zipWith3, zipWith3_map23]
  unfold specCriticTarget
  exact zipWith3_congr (fun r d n => by simp) rewards dones next_states

theorem train_body_ok {S A : Type} (M : NetModel S A) (st : AgentState)
    (states : List S) (actions : List A) (next_states : List S)
    (rewards dones : NTensor) (w : List ℚ) (B B' : ℕ)
    (hr : rewards.shape = [B, 1]) (hd : dones.shape = [B', 1]) :
    train_body M st states actions next_states rewards dones w
      = .ok (trainCore M st states actions next_states rewards.data dones.data) := by
  unfold train_body squeeze1
  rw [hr, hd]
  rfl

theorem train_body_assert {S A : Type} (M : NetModel S A) (st : AgentState)
    (states : List S) (actions : List A) (next_states : List S)
    (rewards dones : NTensor) (w : List ℚ)
    (h : dones.shape.length ≠ 2 ∨ rewards.shape.length ≠ 2) :
    train_body M st states actions next_states rewards dones w
      = .error "AssertionError" := by
  unfold train_body
  rcases h with h | h
  · rw [if_neg h]
  · by_cases h2 : dones.shape.length = 2
    · rw [if_pos h2, if_neg h]
    · rw [if_neg h2]

theorem trainCore_policy_loss {S A : Type} (M : NetModel S A) (st : AgentState)
    (states : List S) (actions : List A) (next_states : List S)
    (rewards dones : List ℚ) :
    (trainCore M st states actions next_states rewards dones).1.policy_loss.val
      = specActorLoss st.alpha
          (fun s a => (M.Q st.qf1 s a).val) (fun s a => (M.Q st.qf2 s a).val)
          (fun s => ((M.actorf st.actorW 1 s).1, (M.actorf st.actorW 1 s).2.val))
          states := by
  simp only [trainCore, zipWith_self_map, zipWith_map_both]
  unfold dmean specActorLoss
  simp only [List.map_map, List.length_map]
  congr 2
  exact map_congr_fun (fun s => by simp [Dual.val_minD, Function.comp]) states

theorem trainCore_alpha_loss {S A : Type} (M : NetModel S A) (st : AgentState)
    (states : List S) (actions : List A) (next_states : List S)
    (rewards dones : List ℚ) (hauto : st.auto_alpha = true) :
    (trainCore M st states actions next_states rewards dones).1.alpha_loss.map Dual.val
      = some (specAlphaLoss st.log_alpha st.target_alpha
          (states.map (fun s => (M.actorf st.actorW 1 s).2.val))) := by
  simp only [trainCore, hauto, if_true]
  unfold dmean specAlphaLoss
  simp only [Option.map_some, List.map_map, List.length_map, Dual.val_neg]
  congr 3

theorem trainCore_td_loss {S A : Type} (M : NetModel S A) (st : AgentState)
    (states : List S) (actions : List A) (next_states : List S)
    (rewards dones : List ℚ) :
    (trainCore M st states actions next_states rewards dones).1.td_loss_q.val
      = mse ((trainCore M st states actions next_states rewards dones).1.target_q.map Dual.val)
          ((trainCore M st states actions next_states rewards dones).1.current_q1.map Dual.val)
        + mse ((trainCore M st states actions next_states rewards dones).1.target_q.map Dual.val)
          ((trainCore M st states actions next_states rewards dones).1.current_q2.map Dual.val) := by
  simp only [trainCore]
  rw [Dual.val_add, dmean_sq_eq_mse, dmean_sq_eq_mse]

theorem trainCore_target_deriv {S A : Type} (M : NetModel S A) (st : AgentState)
    (states : List S) (actions : List A) (next_states : List S)
    (rewards dones : List ℚ) :
    ∀ t ∈ (trainCore M st states actions next_states rewards dones).1.target_q,
      t.deriv = 0 := by
  rw [trainCore_target_q]
  exact forall_mem_zipWith3 (p := fun (t : Dual) => t.deriv = 0) (fun a b c => rfl) _ _ _

/-! ## Claim theorems -/

/-- C1: in every call to the training step (well-shaped inputs), the
critic regression target equals
`rewards + (1 - dones) * discount * (min(Q1_target, Q2_target)(next_states,
next_actions) - alpha * next_logp)` with `(next_actions, next_logp)`
freshly sampled from the actor on `next_states`; gradient flow is stopped
through the target (its tape derivative is zero); and the critic loss is
the mean squared error of `current_q1` against the target plus that of
`current_q2` against the target. -/
theorem sac_critic_target_and_loss {S A : Type} (M : NetModel S A) (st : AgentState)
    (states : List S) (actions : List A) (next_states : List S)
    (rewards dones : NTensor) (weights : List ℚ) (B : ℕ)
    (hr : rewards.shape = [B, 1]) (hd : dones.shape = [B, 1]) :
    train_body M st states actions next_states rewards dones weights
      = .ok (trainCore M st states actions next_states rewards.data dones.data) ∧
    ((trainCore M st states actions next_states rewards.data dones.data).1.target_q.map Dual.val
      = specCriticTarget st.discount st.alpha
          (fun s a => (M.Q st.qf1_target s a).val) (fun s a => (M.Q st.qf2_target s a).val)
          (fun s => ((M.actorf st.actorW 0 s).1, (M.actorf st.actorW 0 s).2.val))
          rewards.data dones.data next_states) ∧
    (∀ t ∈ (trainCore M st states actions next_states rewards.data dones.data).1.target_q,
      t.deriv = 0) ∧
    ((trainCore M st states actions next_states rewards.data dones.data).1.td_loss_q.val
      = mse ((trainCore M st states actions next_states rewards.data dones.data).1.target_q.map Dual.val)
          ((trainCore M st states actions next_states rewards.data dones.data).1.current_q1.map Dual.val)
        + mse ((trainCore M st states actions next_states rewards.data dones.data).1.target_q.map Dual.val)
          ((trainCore M st states actions next_states rewards.data dones.data).1.current_q2.map Dual.val)) :=
  ⟨train_body_ok M st states actions next_states rewards dones weights B B hr hd,
   trainCore_target_val M st states actions next_states rewards.data dones.data,
   trainCore_target_deriv M st states actions next_states rewards.data dones.data,
   trainCore_td_loss M st states actions next_states rewards.data dones.data⟩

/-- Witness for C1 on a concrete one-transition batch. -/
theorem sac_critic_target_and_loss_witness :
    train_body Mw stw statesW actionsW nextStatesW rewardsW donesW [1]
      = .ok (trainCore Mw stw statesW actionsW nextStatesW rewardsW.data donesW.data) ∧
    ((trainCore Mw stw statesW actionsW nextStatesW rewardsW.data donesW.data).1.target_q.map Dual.val
      = specCriticTarget stw.discount stw.alpha
          (fun s a => (Mw.Q stw.qf1_target s a).val) (fun s a => (Mw.Q stw.qf2_target s a).val)
          (fun s => ((Mw.actorf stw.actorW 0 s).1, (Mw.actorf stw.actorW 0 s).2.val))
          rewardsW.data donesW.data nextStatesW) ∧
    (∀ t ∈ (trainCore Mw stw statesW actionsW nextStatesW rewardsW.data donesW.data).1.target_q,
      t.deriv = 0) ∧
    ((trainCore Mw stw statesW actionsW nextStatesW rewardsW.data donesW.data).1.td_loss_q.val
      = mse ((trainCore Mw stw statesW actionsW nextStatesW rewardsW.data donesW.data).1.target_q.map Dual.val)
          ((trainCore Mw stw statesW actionsW nextStatesW rewardsW.data donesW.data).1.current_q1.map Dual.val)
        + mse ((trainCore Mw stw statesW actionsW nextStatesW rewardsW.data donesW.data).1.target_q.map Dual.val)
          ((trainCore Mw stw statesW actionsW nextStatesW rewardsW.data donesW.data).1.current_q2.map Dual.val)) :=
  sac_critic_target_and_loss Mw stw statesW actionsW nextStatesW rewardsW donesW [1] 1 rfl rfl

/-- C2: in every call to the training step, the actor loss equals
`mean(alpha * logp' - min(Q1(states, actions'), Q2(states, actions')))`,
where `(actions', logp')` are resampled from the actor on `states` (draw
index 1: a fresh sample, distinct from the draw-0 sample used for the
critic bootstrap target) and the live critics `qf1`, `qf2` — not the
target critics — are evaluated. -/
theorem sac_actor_loss {S A : Type} (M : NetModel S A) (st : AgentState)
    (states : List S) (actions : List A) (next_states : List S)
    (rewards dones : NTensor) (weights : List ℚ) (B : ℕ)
    (hr : rewards.shape = [B, 1]) (hd : dones.shape = [B, 1]) :
    train_body M st states actions next_states rewards dones weights
      = .ok (trainCore M st states actions next_states rewards.data dones.data) ∧
    ((trainCore M st states actions next_states rewards.data dones.data).1.policy_loss.val
      = specActorLoss st.alpha
          (fun s a => (M.Q st.qf1 s a).val) (fun s a => (M.Q st.qf2 s a).val)
          (fun s => ((M.actorf st.actorW 1 s).1, (M.actorf st.actorW 1 s).2.val)) states) ∧
    ((trainCore M st states actions next_states rewards.data dones.data).1.sample_actions
      = states.map (fun s => (M.actorf st.actorW 1 s).1)) ∧
    ((trainCore M st states actions next_states rewards.data dones.data).1.sample_next_actions
      = next_states.map (fun s => (M.actorf st.actorW 0 s).1)) :=
  ⟨train_body_ok M st states actions next_states rewards dones weights B B hr hd,
   trainCore_policy_loss M st states actions next_states rewards.data dones.data,
   rfl, rfl⟩

/-- Witness for C2 on a concrete one-transition batch. -/
theorem sac_actor_loss_witness :
    train_body Mw stw statesW actionsW nextStatesW rewardsW donesW [1]
      = .ok (trainCore Mw stw statesW actionsW nextStatesW rewardsW.data donesW.data) ∧
    ((trainCore Mw stw statesW actionsW nextStatesW rewardsW.data donesW.data).1.policy_loss.val
      = specActorLoss stw.alpha
          (fun s a => (Mw.Q stw.qf1 s a).val) (fun s a => (Mw.Q stw.qf2 s a).val)
          (fun s => ((Mw.actorf stw.actorW 1 s).1, (Mw.actorf stw.actorW 1 s).2.val)) statesW) ∧
    ((trainCore Mw stw statesW actionsW nextStatesW rewardsW.data donesW.data).1.sample_actions
      = statesW.map (fun s => (Mw.actorf stw.actorW 1 s).1)) ∧
    ((trainCore Mw stw statesW actionsW nextStatesW rewardsW.data donesW.data).1.sample_next_actions
      = nextStatesW.map (fun s => (Mw.actorf stw.actorW 0 s).1)) :=
  sac_actor_loss Mw stw statesW actionsW nextStatesW rewardsW donesW [1] 1 rfl rfl

/-- C3: in every training step the applied critic gradient step is a
function of the regression-target values formed from the *pre-update*
target-network weights `qf1_target`, `qf2_target`; the soft update of
both target networks happens strictly after the critic gradient step
(the new target weights interpolate the old target weights toward the
*post-gradient* live weights); the targets used in the regression target
are never the moved ones. -/
theorem sac_update_ordering {S A : Type} (M : NetModel S A) (st : AgentState)
    (states : List S) (actions : List A) (next_states : List S)
    (rewards dones : NTensor) (weights : List ℚ) (B : ℕ)
    (hr : rewards.shape = [B, 1]) (hd : dones.shape = [B, 1]) :
    train_body M st states actions next_states rewards dones weights
      = .ok (trainCore M st states actions next_states rewards.data dones.data) ∧
    ((trainCore M st states actions next_states rewards.data dones.data).2.qf1
      = (M.qGradStep st.qf1 st.qf2 states actions
          ((trainCore M st states actions next_states rewards.data dones.data).1.target_q.map Dual.val)).1) ∧
    ((trainCore M st states actions next_states rewards.data dones.data).2.qf2
      = (M.qGradStep st.qf1 st.qf2 states actions
          ((trainCore M st states actions next_states rewards.data dones.data).1.target_q.map Dual.val)).2) ∧
    ((trainCore M st states actions next_states rewards.data dones.data).1.target_q.map Dual.val
      = specCriticTarget st.discount st.alpha
          (fun s a => (M.Q st.qf1_target s a).val) (fun s a => (M.Q st.qf2_target s a).val)
          (fun s => ((M.actorf st.actorW 0 s).1, (M.actorf st.actorW 0 s).2.val))
          rewards.data dones.data next_states) ∧
    ((trainCore M st states actions next_states rewards.data dones.data).2.qf1_target
      = update_target_variables st.qf1_target
          ((trainCore M st states actions next_states rewards.data dones.data).2.qf1) st.tau) ∧
    ((trainCore M st states actions next_states rewards.data dones.data).2.qf2_target
      = update_target_variables st.qf2_target
          ((trainCore M st states actions next_states rewards.data dones.data).2.qf2) st.tau) :=
  ⟨train_body_ok M st states actions next_states rewards dones weights B B hr hd,
   rfl, rfl,
   trainCore_target_val M st states actions next_states rewards.data dones.data,
   rfl, rfl⟩

/-- Witness for C3 on a concrete one-transition batch. -/
theorem sac_update_ordering_witness :
    train_body Mw stw statesW actionsW nextStatesW rewardsW donesW [1]
      = .ok (trainCore Mw stw statesW actionsW nextStatesW rewardsW.data donesW.data) ∧
    ((trainCore Mw stw statesW actionsW nextStatesW rewardsW.data donesW.data).2.qf1
      = (Mw.qGradStep stw.qf1 stw.qf2 statesW actionsW
          ((trainCore Mw stw statesW actionsW nextStatesW rewardsW.data donesW.data).1.target_q.map Dual.val)).1) ∧
    ((trainCore Mw stw statesW actionsW nextStatesW rewardsW.data donesW.data).2.qf2
      = (Mw.qGradStep stw.qf1 stw.qf2 statesW actionsW
          ((trainCore Mw stw statesW actionsW nextStatesW rewardsW.data donesW.data).1.target_q.map Dual.val)).2) ∧
    ((trainCore Mw stw statesW actionsW nextStatesW rewardsW.data donesW.data).1.target_q.map Dual.val
      = specCriticTarget stw.discount stw.alpha
          (fun s a => (Mw.Q stw.qf1_target s a).val) (fun s a => (Mw.Q stw.qf2_target s a).val)
          (fun s => ((Mw.actorf stw.actorW 0 s).1, (Mw.actorf stw.actorW 0 s).2.val))
          rewardsW.data donesW.data nextStatesW) ∧
    ((trainCore Mw stw statesW actionsW nextStatesW rewardsW.data donesW.data).2.qf1_target
      = update_target_variables stw.qf1_target
          ((trainCore Mw stw statesW actionsW nextStatesW rewardsW.data donesW.data).2.qf1) stw.tau) ∧
    ((trainCore Mw stw statesW actionsW nextStatesW rewardsW.data donesW.data).2.qf2_target
      = update_target_variables stw.qf2_target
          ((trainCore Mw stw statesW actionsW nextStatesW rewardsW.data donesW.data).2.qf2) stw.tau) :=
  sac_update_ordering Mw stw statesW actionsW nextStatesW rewardsW donesW [1] 1 rfl rfl

/-- C4 (code bug): `compute_td_error` does not compute the training
step's twin-Q bootstrapped target; on every agent produced by the
constructor the body's lookup of the `vf_target` attribute fails (the
value-function setup is commented out in `__init__`), so the call raises
instead of returning TD errors. -/
theorem sac_compute_td_error_attribute_failure {S A : Type} (M : NetModel S A)
    (ad : ℕ) (aArg : ℚ) (auto : Bool) (tau disc : ℚ) (ef : ℚ → ℚ)
    (w1 w2 w3 w4 w5 : List ℚ) (sn : ℕ)
    (states : List S) (actions : List A) (next_states : List S)
    (rewards dones : List ℚ) :
    compute_td_error_body M (initSAC ad aArg auto tau disc ef w1 w2 w3 w4 w5 sn)
      states actions next_states rewards dones = .error "AttributeError" := rfl

/-- C5: the training step asserts that `rewards` and `dones` are rank-2;
any other rank is an assertion failure, and rank-2 `(B, 1)` inputs are
squeezed to rank-1 `(B,)` data vectors before the loss computation. -/
theorem sac_train_shape_contract {S A : Type} (M : NetModel S A) (st : AgentState)
    (states : List S) (actions : List A) (next_states : List S)
    (rewards dones : NTensor) (weights : List ℚ) :
    (dones.shape.length ≠ 2 ∨ rewards.shape.length ≠ 2 →
      train_body M st states actions next_states rewards dones weights
        = .error "AssertionError") ∧
    (∀ B : ℕ, rewards.shape = [B, 1] → dones.shape = [B, 1] →
      squeeze1 rewards = .ok ⟨[B], rewards.data⟩ ∧
      squeeze1 dones = .ok ⟨[B], dones.data⟩ ∧
      train_body M st states actions next_states rewards dones weights
        = .ok (trainCore M st states actions next_states rewards.data dones.data)) := by
  constructor
  · exact train_body_assert M st states actions next_states rewards dones weights
  · intro B hr hd
    refine ⟨?_, ?_, train_body_ok M st states actions next_states rewards dones weights B B hr hd⟩
    · unfold squeeze1
      rw [hr]
    · unfold squeeze1
      rw [hd]

/-- Witness for C5: a rank-1 `rewards` tensor trips the assertion; the
well-shaped batch is squeezed and trains. -/
theorem sac_train_shape_contract_witness :
    (train_body Mw stw statesW actionsW nextStatesW rewardsBadW donesW [1]
      = .error "AssertionError") ∧
    (squeeze1 rewardsW = .ok ⟨[1], rewardsW.data⟩ ∧
     squeeze1 donesW = .ok ⟨[1], donesW.data⟩ ∧
     train_body Mw stw statesW actionsW nextStatesW rewardsW donesW [1]
      = .ok (trainCore Mw stw statesW actionsW nextStatesW rewardsW.data donesW.data)) :=
  ⟨(sac_train_shape_contract Mw stw statesW actionsW nextStatesW rewardsBadW donesW [1]).1
      (Or.inr (by decide)),
   (sac_train_shape_contract Mw stw statesW actionsW nextStatesW rewardsW donesW [1]).2
      1 rfl rfl⟩

/-- C6: when every entry of `dones` equals 1, the critic regression
target computed by the training step equals `rewards` exactly: the
bootstrap term `not_dones * discount * soft_next_value` vanishes. -/
theorem sac_terminal_masking {S A : Type} (M : NetModel S A) (st : AgentState)
    (states : List S) (actions : List A) (next_states : List S)
    (rewards dones : NTensor) (weights : List ℚ) (B : ℕ)
    (hr : rewards.shape = [B, 1]) (hd : dones.shape = [B, 1])
    (hall : ∀ d ∈ dones.data, d = (1 : ℚ))
    (hld : dones.data.length = rewards.data.length)
    (hln : next_states.length = rewards.data.length) :
    train_body M st states actions next_states rewards dones weights
      = .ok (trainCore M st states actions next_states rewards.data dones.data) ∧
    ((trainCore M st states actions next_states rewards.data dones.data).1.target_q.map Dual.val
      = rewards.data) := by
  refine ⟨train_body_ok M st states actions next_states rewards dones weights B B hr hd, ?_⟩
  rw [trainCore_target_val]
  unfold specCriticTarget
  exact zipWith3_eq_left rewards.data dones.data next_states hld hln
    (fun a b hb c => by rw [hall b hb]; ring)

/-- Witness for C6: a batch whose single transition is terminal. -/
theorem sac_terminal_masking_witness :
    train_body Mw stw statesW actionsW nextStatesW rewardsW donesOneW [1]
      = .ok (trainCore Mw stw statesW actionsW nextStatesW rewardsW.data donesOneW.data) ∧
    ((trainCore Mw stw statesW actionsW nextStatesW rewardsW.data donesOneW.data).1.target_q.map Dual.val
      = rewardsW.data) :=
  sac_terminal_masking Mw stw statesW actionsW nextStatesW rewardsW donesOneW [1] 1
    rfl rfl (fun d hd => by simpa [donesOneW] using hd) rfl rfl

/-- C7: on a single observation (rank equal to the configured state
rank), action selection expands it to a batch of one, dispatches it
through the actor, and strips the batch dimension: given the actor's
batch contract (actions of shape `[batch, action_dim]`, log-probs of
shape `[batch]`), the caller receives an action of shape `[action_dim]`
and a scalar (rank-0) log-probability. -/
theorem sac_get_action_single {S A : Type} (M : NetModel S A) (st : AgentState)
    (state : NTensor) (test : Bool) (action_dim : ℕ)
    (hB : ∀ p s t, (M.actorB p s t).1.shape = [s.shape.headD 0, action_dim] ∧
        (M.actorB p s t).2.shape = [s.shape.headD 0])
    (hrank : state.shape.length = st.state_ndim) :
    get_action M st state test
      = (index0 (M.actorB st.actorW (expandDims0 state) test).1,
         index0 (M.actorB st.actorW (expandDims0 state) test).2) ∧
    (get_action M st state test).1.shape = [action_dim] ∧
    (get_action M st state test).2.shape = [] := by
  have h1 := (hB st.actorW (expandDims0 state) test).1
  have h2 := (hB st.actorW (expandDims0 state) test).2
  refine ⟨?_, ?_, ?_⟩
  · unfold get_action
    rw [if_pos hrank]
  · unfold get_action
    rw [if_pos hrank]
    show (index0 (M.actorB st.actorW (expandDims0 state) test).1).shape = [action_dim]
    simp [index0, h1]
  · unfold get_action
    rw [if_pos hrank]
    show (index0 (M.actorB st.actorW (expandDims0 state) test).2).shape = []
    simp [index0, h2]

/-- Witness for C7: a single rank-1 observation of four features. -/
theorem sac_get_action_single_witness :
    get_action Mw stw ⟨[4], [1, 2, 3, 4]⟩ true
      = (index0 (Mw.actorB stw.actorW (expandDims0 ⟨[4], [1, 2, 3, 4]⟩) true).1,
         index0 (Mw.actorB stw.actorW (expandDims0 ⟨[4], [1, 2, 3, 4]⟩) true).2) ∧
    (get_action Mw stw ⟨[4], [1, 2, 3, 4]⟩ true).1.shape = [2] ∧
    (get_action Mw stw ⟨[4], [1, 2, 3, 4]⟩ true).2.shape = [] :=
  sac_get_action_single Mw stw ⟨[4], [1, 2, 3, 4]⟩ true 2
    (fun p s t => ⟨rfl, rfl⟩) rfl

/-- C8: with entropy-temperature auto-tuning enabled, the constructor
sets `target_alpha = -action_dim`; in every training step the alpha loss
equals `-mean(log_alpha * stop_gradient(logp' + target_alpha))` over the
resampled log-probabilities; and after the `log_alpha` gradient step the
agent's `alpha` equals `exp` of the updated `log_alpha`. -/
theorem sac_auto_alpha {S A : Type} (M : NetModel S A) (st : AgentState)
    (states : List S) (actions : List A) (next_states : List S)
    (rewards dones : NTensor) (weights : List ℚ) (B : ℕ)
    (hr : rewards.shape = [B, 1]) (hd : dones.shape = [B, 1])
    (hauto : st.auto_alpha = true) :
    (∀ (ad : ℕ) (aArg tau disc : ℚ) (ef : ℚ → ℚ) (w1 w2 w3 w4 w5 : List ℚ) (sn : ℕ),
      (initSAC ad aArg true tau disc ef w1 w2 w3 w4 w5 sn).target_alpha = -(ad : ℚ)) ∧
    train_body M st states actions next_states rewards dones weights
      = .ok (trainCore M st states actions next_states rewards.data dones.data) ∧
    ((trainCore M st states actions next_states rewards.data dones.data).1.alpha_loss.map Dual.val
      = some (specAlphaLoss st.log_alpha st.target_alpha
          (states.map (fun s => (M.actorf st.actorW 1 s).2.val)))) ∧
    ((trainCore M st states actions next_states rewards.data dones.data).2.alpha
      = M.expf ((trainCore M st states actions next_states rewards.data dones.data).2.log_alpha)) := by
  refine ⟨fun ad aArg tau disc ef w1 w2 w3 w4 w5 sn => rfl,
    train_body_ok M st states actions next_states rewards dones weights B B hr hd,
    trainCore_alpha_loss M st states actions next_states rewards.data dones.data hauto, ?_⟩
  simp [trainCore, hauto]

/-- Witness for C8 on the auto-tuning agent. -/
theorem sac_auto_alpha_witness :
    ((initSAC 2 (1/5) true (1/200) (99/100) (fun x => 1 + x + x * x / 2)
        [1, 2] [2, 1] [0, 0] [0, 0] [3] 1).target_alpha = -((2 : ℕ) : ℚ)) ∧
    train_body Mw stwAuto statesW actionsW nextStatesW rewardsW donesW [1]
      = .ok (trainCore Mw stwAuto statesW actionsW nextStatesW rewardsW.data donesW.data) ∧
    ((trainCore Mw stwAuto statesW actionsW nextStatesW rewardsW.data donesW.data).1.alpha_loss.map Dual.val
      = some (specAlphaLoss stwAuto.log_alpha stwAuto.target_alpha
          (statesW.map (fun s => (Mw.actorf stwAuto.actorW 1 s).2.val)))) ∧
    ((trainCore Mw stwAuto statesW actionsW nextStatesW rewardsW.data donesW.data).2.alpha
      = Mw.expf ((trainCore Mw stwAuto statesW actionsW nextStatesW rewardsW.data donesW.data).2.log_alpha)) :=
  have h := sac_auto_alpha Mw stwAuto statesW actionsW nextStatesW rewardsW donesW [1] 1
    rfl rfl rfl
  ⟨h.1 2 (1/5) (1/200) (99/100) (fun x => 1 + x + x * x / 2) [1, 2] [2, 1] [0, 0] [0, 0] [3] 1,
   h.2.1, h.2.2.1, h.2.2.2⟩

/-- C9: when auto-tuning is disabled, the training step never modifies
the entropy coefficient: `alpha` (and `log_alpha`) after the step equal
their values before it. -/
theorem sac_fixed_alpha_frame {S A : Type} (M : NetModel S A) (st : AgentState)
    (states : List S) (actions : List A) (next_states : List S)
    (rewards dones : NTensor) (weights : List ℚ) (B : ℕ)
    (hr : rewards.shape = [B, 1]) (hd : dones.shape = [B, 1])
    (hauto : st.auto_alpha = false) :
    train_body M st states actions next_states rewards dones weights
      = .ok (trainCore M st states actions next_states rewards.data dones.data) ∧
    ((trainCore M st states actions next_states rewards.data dones.data).2.alpha = st.alpha) ∧
    ((trainCore M st states actions next_states rewards.data dones.data).2.log_alpha
      = st.log_alpha) := by
  refine ⟨train_body_ok M st states actions next_states rewards dones weights B B hr hd, ?_, ?_⟩
  · simp [trainCore, hauto]
  · simp [trainCore, hauto]

/-- Witness for C9 on the fixed-temperature agent. -/
theorem sac_fixed_alpha_frame_witness :
    train_body Mw stw statesW actionsW nextStatesW rewardsW donesW [1]
      = .ok (trainCore Mw stw statesW actionsW nextStatesW rewardsW.data donesW.data) ∧
    ((trainCore Mw stw statesW actionsW nextStatesW rewardsW.data donesW.data).2.alpha = stw.alpha) ∧
    ((trainCore Mw stw statesW actionsW nextStatesW rewardsW.data donesW.data).2.log_alpha
      = stw.log_alpha) :=
  sac_fixed_alpha_frame Mw stw statesW actionsW nextStatesW rewardsW donesW [1] 1 rfl rfl rfl

/-- C10: the `weights` argument has no effect on the training step or on
`train`: two calls from identical agent state and identical batch but
different `weights` (including the defaulted all-ones) produce identical
outputs and identical state updates, because `weights` is accepted and
forwarded but never used. -/
theorem sac_weights_no_effect {S A : Type} (M : NetModel S A) (st : AgentState)
    (states : List S) (actions : List A) (next_states : List S)
    (rewards dones : NTensor) (w1 w2 : List ℚ) (o1 o2 : Option (List ℚ)) :
    train_body M st states actions next_states rewards dones w1
      = train_body M st states actions next_states rewards dones w2 ∧
    train M st states actions next_states rewards dones o1
      = train M st states actions next_states rewards dones o2 :=
  ⟨rfl, rfl⟩
